import Mathlib

/-!
Shallow embedding of the budget-reminder core (money parsing, row-to-entity
mappers, budget statistics aggregation, overflow derivation and the budget
line-item sort) together with theorems settling the frozen claims.

Monetary values are embedded as rationals: every literal the program handles
is a short decimal string, parsed and combined by exact arithmetic here.
Fallible code (indexing, numeric parsing) is embedded in `Option`, with
`none` standing for a raised exception.
-/

/-- ASCII whitespace, the characters removed by Python's `str.strip()`. -/
def isSpaceChar (c : Char) : Bool :=
  c == ' ' || c == '\t' || c == '\n' || c == '\r'

/-- Python `str.strip()`: drop whitespace from both ends. -/
def pyStrip (s : String) : String :=
  ⟨((s.data.dropWhile isSpaceChar).reverse.dropWhile isSpaceChar).reverse⟩

/-- Python `str.lower()` (ASCII case mapping). -/
def pyLower (s : String) : String := ⟨s.data.map Char.toLower⟩

/-- Python `str.upper()` (ASCII case mapping). -/
def pyUpper (s : String) : String := ⟨s.data.map Char.toUpper⟩

/-- A character kept by the money regex `[^\d\.-]` substitution:
digits, `.` and `-` survive, everything else is stripped. -/
def moneyChar (c : Char) : Bool := c.isDigit || c == '.' || c == '-'

/-- `re.sub(r"[^\d\.-]", "", value)`: the residue of a money string. -/
def stripMoney (s : String) : List Char := s.data.filter moneyChar

/-- Value of a digit run read left to right. -/
def natOfDigits (l : List Char) : ℕ :=
  l.foldl (fun acc c => acc * 10 + (c.toNat - 48)) 0

/-- The syntactic decomposition of a successfully parsed number: sign,
integer-part digits, fraction digits and the length of the fraction run. -/
structure NumParts where
  neg : Bool
  intPart : ℕ
  fracPart : ℕ
  fracLen : ℕ
deriving DecidableEq, Repr

/-- `float(residue)` for a residue made only of digits, `.` and `-`:
an optional single leading minus, at most one decimal point, at least one
digit; anything else (second dash, misplaced dash, second dot, no digit at
all) is a `ValueError`, embedded as `none`. -/
def partsOfResidue (l : List Char) : Option NumParts :=
  let neg := l.head? == some '-'
  let t := if neg then l.tail else l
  if t.all (fun c => c.isDigit || c == '.') && t.count '.' ≤ 1 &&
      t.any Char.isDigit then
    let ip := t.takeWhile (fun c => c ≠ '.')
    let fp := (t.dropWhile (fun c => c ≠ '.')).drop 1
    some ⟨neg, natOfDigits ip, natOfDigits fp, fp.length⟩
  else
    none

/-- The exact rational value named by a parsed decomposition. -/
def NumParts.toRat (p : NumParts) : ℚ :=
  (if p.neg then -1 else 1) * (p.intPart + p.fracPart / 10 ^ p.fracLen)

/-- `helpers.parse_money`: empty (or missing) input is a defined `0`;
otherwise strip every character except digits, `.` and `-` and parse the
residue, surfacing a parse failure as `none`. -/
def parse_money (value : String) : Option ℚ :=
  if value = "" then some 0
  else (partsOfResidue (stripMoney value)).map NumParts.toRat

/-- Bare `float(s)` on a raw cell: surrounding whitespace is ignored, the
rest must be a plain signed decimal (exponents and the words inf/nan never
occur in this data and are not modelled); failure raises. -/
def pyFloat (s : String) : Option ℚ :=
  (partsOfResidue (pyStrip s).data).map NumParts.toRat

/-- The closed three-value spend category enumeration. -/
inductive BssCategory where
  | Spending
  | Bills
  | Savings
deriving DecidableEq, Repr

/-- One categorized-spend pair: a category and an amount. -/
structure BssSpent where
  category : BssCategory
  amount : ℚ
deriving DecidableEq, Repr

/-- Substring test on character lists (Python's `needle in hay`). -/
def containsSub (needle : List Char) : List Char → Bool
  | [] => needle.isEmpty
  | c :: rest => needle.isPrefixOf (c :: rest) || containsSub needle rest

/-- Classification of a label cell: strip and lowercase it, then test for
the substrings `"bill"` and `"sav"`, in that order; anything else is
`Spending`. -/
def categorize (label : String) : BssCategory :=
  let s := (pyLower (pyStrip label)).data
  if containsSub "bill".data s then BssCategory.Bills
  else if containsSub "sav".data s then BssCategory.Savings
  else BssCategory.Spending

/-- `BssSpent.from_rows`: walk the block with a cursor; a row that is empty
or whose first cell strips to blank advances the cursor by one; otherwise
the row is a label, the row after it (when present, else a defaulted `0`)
is the amount, and the cursor advances by two.  Indexing an empty amount
row, or a money-parse failure, raises (`none`). -/
def BssSpent.from_rows : List (List String) → Option (List BssSpent)
  | [] => some []
  | [] :: rest => BssSpent.from_rows rest
  | (c0 :: _) :: rest =>
    if pyStrip c0 = "" then BssSpent.from_rows rest
    else
      match rest with
      | [] => some [⟨categorize c0, 0⟩]
      | next :: rest2 =>
        match next.head? with
        | none => none
        | some n0 =>
          match parse_money n0 with
          | none => none
          | some amt => (BssSpent.from_rows rest2).map (⟨categorize c0, amt⟩ :: ·)

/-- A period's categorized spend collection. -/
structure Bss where
  elements : List BssSpent
deriving DecidableEq, Repr

/-- `Bss.from_rows` wraps the pairwise row walk. -/
def Bss.from_rows (rows : List (List String)) : Option Bss :=
  (BssSpent.from_rows rows).map Bss.mk

/-- Sum of amounts held by one category. -/
def Bss.sumCategory (b : Bss) (c : BssCategory) : ℚ :=
  ((b.elements.filter (fun e => e.category == c)).map BssSpent.amount).sum

/-- `Bss.spending`. -/
def Bss.spending (b : Bss) : ℚ := b.sumCategory BssCategory.Spending

/-- `Bss.bills`. -/
def Bss.bills (b : Bss) : ℚ := b.sumCategory BssCategory.Bills

/-- `Bss.savings`. -/
def Bss.savings (b : Bss) : ℚ := b.sumCategory BssCategory.Savings

/-- `Bss.total`: sum over every element, category ignored. -/
def Bss.total (b : Bss) : ℚ := (b.elements.map BssSpent.amount).sum

/-- `PaymentsOverview`: one category/amount pair from the "Payments" column. -/
structure PaymentsOverview where
  category : String
  amount : ℚ
deriving DecidableEq, Repr

/-- `PaymentsOverview.from_row`: read the amount from column 1 (indexing
past the row end or a money-parse failure raises); a zero amount means the
row is dropped (`some none`), otherwise an entity materializes. -/
def PaymentsOverview.from_row (row : List String) :
    Option (Option PaymentsOverview) :=
  match row.get? 1 with
  | none => none
  | some cell =>
    match parse_money cell with
    | none => none
    | some amount =>
      if amount = 0 then some none
      else some (some ⟨row.headD "", amount⟩)

/-- `PaymentsOverview.from_range`: the comprehension keeping only rows that
materialized; any raised error aborts the whole range. -/
def PaymentsOverview.from_range : List (List String) →
    Option (List PaymentsOverview)
  | [] => some []
  | row :: rest =>
    match PaymentsOverview.from_row row with
    | none => none
    | some r =>
      match PaymentsOverview.from_range rest with
      | none => none
      | some rs =>
        some (match r with
          | none => rs
          | some e => e :: rs)

/-- `SavingsOverview`: one category/amount pair from the "To Save" column. -/
structure SavingsOverview where
  category : String
  amount : ℚ
deriving DecidableEq, Repr

/-- `SavingsOverview.from_row`: same block as `PaymentsOverview` but the
governing amount is column 2. -/
def SavingsOverview.from_row (row : List String) :
    Option (Option SavingsOverview) :=
  match row.get? 2 with
  | none => none
  | some cell =>
    match parse_money cell with
    | none => none
    | some amount =>
      if amount = 0 then some none
      else some (some ⟨row.headD "", amount⟩)

/-- `SavingsOverview.from_range`. -/
def SavingsOverview.from_range : List (List String) →
    Option (List SavingsOverview)
  | [] => some []
  | row :: rest =>
    match SavingsOverview.from_row row with
    | none => none
    | some r =>
      match SavingsOverview.from_range rest with
      | none => none
      | some rs =>
        some (match r with
          | none => rs
          | some e => e :: rs)

/-- `TransferOverview`: a transfer between two accounts. -/
structure TransferOverview where
  from_account : String
  to_account : String
  amount : ℚ
deriving DecidableEq, Repr

/-- `TransferOverview.from_row`: governing amount in column 2, accounts in
columns 0 and 1; zero amount drops the row. -/
def TransferOverview.from_row (row : List String) :
    Option (Option TransferOverview) :=
  match row.get? 2 with
  | none => none
  | some cell =>
    match parse_money cell with
    | none => none
    | some amount =>
      if amount = 0 then some none
      else some (some ⟨row.headD "", (row.get? 1).getD "", amount⟩)

/-- `TransferOverview.from_range`. -/
def TransferOverview.from_range : List (List String) →
    Option (List TransferOverview)
  | [] => some []
  | row :: rest =>
    match TransferOverview.from_row row with
    | none => none
    | some r =>
      match TransferOverview.from_range rest with
      | none => none
      | some rs =>
        some (match r with
          | none => rs
          | some e => e :: rs)

/-- The three-way expense classification. -/
inductive ExpenseType where
  | Expendable
  | Saving
  | RequiredPayment
deriving DecidableEq, Repr

/-- The manual-path flag translation (`match str(row[3])`): exactly the
string `"FALSE"` gives `RequiredPayment`, every other string matches the
wildcard and gives `Expendable`. -/
def manualExpenseType (flag : String) : ExpenseType :=
  match flag with
  | "FALSE" => ExpenseType.RequiredPayment
  | _ => ExpenseType.Expendable

/-- The recurring-path flag translation (`match str(row[4])`): exactly
`"FALSE"` gives `RequiredPayment`, anything else gives `Saving`. -/
def recurringExpenseType (flag : String) : ExpenseType :=
  match flag with
  | "FALSE" => ExpenseType.RequiredPayment
  | _ => ExpenseType.Saving

/-- A calendar date, embedded as a natural number that preserves
chronological order with Python's `date.min` (0001-01-01) at `0`:
`(y, m, d)` is encoded as `(y-1)*372 + (m-1)*31 + (d-1)`. -/
def dateCode (y m d : ℕ) : ℕ := (y - 1) * 372 + (m - 1) * 31 + (d - 1)

/-- Split a character list on a separator character. -/
def splitOnChar (sep : Char) : List Char → List (List Char)
  | [] => [[]]
  | c :: rest =>
    match splitOnChar sep rest with
    | [] => [[c]]
    | w :: ws => if c == sep then [] :: w :: ws else (c :: w) :: ws

/-- `datetime.strptime(s, "%m/%d/%Y").date()`: three `/`-separated digit
fields, month in 1..12, day in 1..31, year at least 1; anything else is a
fatal `ValueError` (`none`).  (Month-length refinements such as rejecting
Feb 30 are not needed by any claim and are not modelled.) -/
def parseDateMDY (s : String) : Option ℕ :=
  match splitOnChar '/' s.data with
  | [m, d, y] =>
    if m ≠ [] && m.all Char.isDigit &&
        d ≠ [] && d.all Char.isDigit &&
        y ≠ [] && y.all Char.isDigit then
      let mv := natOfDigits m
      let dv := natOfDigits d
      let yv := natOfDigits y
      if 1 ≤ mv && mv ≤ 12 && 1 ≤ dv && dv ≤ 31 && 1 ≤ yv then
        some (dateCode yv mv dv)
      else none
    else none
  | _ => none

/-- `Budget`: one budget line item. -/
structure Budget where
  category : String
  subcategory : Option String
  amount : ℚ
  timeframe : ℚ
  description : String
  expense_type : ExpenseType
  paid_from : Option String
  next_approx_payment : Option ℕ
deriving DecidableEq, Repr

/-- `Budget.from_manual_budget_row`: columns are category, amount,
description, per-day-expendable flag; the description is
`"<category> / <detail>"` when the detail cell is non-blank, else the
category alone; no subcategory, funding account or due date. -/
def Budget.from_manual_budget_row (period_size : ℚ) (row : List String) :
    Option Budget :=
  match row.get? 0, row.get? 1, row.get? 2, row.get? 3 with
  | some c0, some c1, some c2, some c3 =>
    let category := pyStrip c0
    let detailed := pyStrip c2
    let description :=
      if detailed = "" then category else category ++ " / " ++ detailed
    match parse_money c1 with
    | none => none
    | some amount =>
      some ⟨category, none, amount, period_size, description,
        manualExpenseType c3, none, none⟩
  | _, _, _, _ => none

/-- `Budget.from_manual_budget_range`. -/
def Budget.from_manual_budget_range (period_size : ℚ) :
    List (List String) → Option (List Budget)
  | [] => some []
  | row :: rest =>
    match Budget.from_manual_budget_row period_size row with
    | none => none
    | some b =>
      (Budget.from_manual_budget_range period_size rest).map (b :: ·)

/-- `Budget.from_recurring_budget_row`: columns are subcategory,
description, amount, timeframe in days, is-saving flag, funding account,
(unused), next approximate payment date; the parent category is the first
entry of the (insertion-ordered) category table whose subcategory list
contains the subcategory, and a missing parent is a fatal error. -/
def Budget.from_recurring_budget_row (cat2subcat : List (String × List String))
    (row : List String) : Option Budget :=
  match row.get? 0, row.get? 1, row.get? 2, row.get? 3, row.get? 4,
      row.get? 5, row.get? 7 with
  | some c0, some c1, some c2, some c3, some c4, some c5, some c7 =>
    let subcategory := pyStrip c0
    let description := pyStrip c1
    match parse_money c2, pyFloat c3,
        parseDateMDY (pyStrip c7) with
    | some amount, some timeframe, some next_approx_payment =>
      match cat2subcat.find? (fun p => p.2.contains subcategory) with
      | none => none
      | some p =>
        some ⟨p.1, some subcategory, amount, timeframe, description,
          recurringExpenseType c4, some (pyStrip c5),
          some next_approx_payment⟩
    | _, _, _ => none
  | _, _, _, _, _, _, _ => none

/-- `Budget.from_recurring_budget_range`. -/
def Budget.from_recurring_budget_range (cat2subcat : List (String × List String)) :
    List (List String) → Option (List Budget)
  | [] => some []
  | row :: rest =>
    match Budget.from_recurring_budget_row cat2subcat row with
    | none => none
    | some b =>
      (Budget.from_recurring_budget_range cat2subcat rest).map (b :: ·)

/-- The sort key used by `main`: `b.next_approx_payment or date.min`, i.e.
the due date with missing dates replaced by the minimum possible date. -/
def budgetSortKey (b : Budget) : ℕ := b.next_approx_payment.getD 0

/-- The `budgets.sort(key=...)` step of `main`: Python's `list.sort` is a
stable ascending sort by key, embedded as a stable insertion sort over the
key order. -/
def sortBudgets (l : List Budget) : List Budget :=
  l.insertionSort (fun a b => budgetSortKey a ≤ budgetSortKey b)

instance : IsTotal Budget (fun a b => budgetSortKey a ≤ budgetSortKey b) :=
  ⟨fun a b => Nat.le_total (budgetSortKey a) (budgetSortKey b)⟩

instance : IsTrans Budget (fun a b => budgetSortKey a ≤ budgetSortKey b) :=
  ⟨fun _ _ _ => Nat.le_trans⟩

/-- `AccountBalance`: one account row with the derived difference. -/
structure AccountBalance where
  name : String
  amount_manual : ℚ
  amount_calc : ℚ
  amount_diff : ℚ
deriving DecidableEq, Repr

/-- `AccountBalance.from_row` (loop body of `AccountBalance.from_rows`):
name from column 0, calculated amount from column 2, manual amount from
column 3, difference always computed as manual minus calculated. -/
def AccountBalance.from_row (row : List String) : Option AccountBalance :=
  match row.get? 0, row.get? 2, row.get? 3 with
  | some c0, some c2, some c3 =>
    match parse_money c2, parse_money c3 with
    | some amount_calc, some amount_manual =>
      some ⟨pyStrip c0, amount_manual, amount_calc,
        amount_manual - amount_calc⟩
    | _, _ => none
  | _, _, _ => none

/-- `AccountBalance.from_rows`. -/
def AccountBalance.from_rows : List (List String) → Option (List AccountBalance)
  | [] => some []
  | row :: rest =>
    match AccountBalance.from_row row with
    | none => none
    | some ab => (AccountBalance.from_rows rest).map (ab :: ·)

/-- `BudgetStats`: the sixteen-field period snapshot. -/
structure BudgetStats where
  income_account : String
  total_budget : ℚ
  income_at_period_start : ℚ
  checking_amount_period_start : ℚ
  total_withheld_required_payments : ℚ
  total_withheld_savings : ℚ
  balance_after_withheld : ℚ
  budget_after_withheld : ℚ
  allocated_spending_budget : ℚ
  balance_after_withheld_and_spending : ℚ
  budget_after_withheld_and_spending : ℚ
  budget_after_withheld_and_spent : ℚ
  overspent_soft : Bool
  overspent_hard : Bool
  checking_floor : ℚ
  free_to_spend : ℚ
deriving DecidableEq, Repr

/-- `rows[k][0]`: the single cell of row `k`; out of range raises. -/
def cellAt (rows : List (List String)) (k : ℕ) : Option String :=
  match rows.get? k with
  | none => none
  | some row => row.head?

/-- `rows[k][0]` fed to `parse_money`. -/
def moneyAt (rows : List (List String)) (k : ℕ) : Option ℚ :=
  match cellAt rows k with
  | none => none
  | some cell => parse_money cell

/-- `rows[k][0].strip().upper() == "TRUE"`. -/
def boolAt (rows : List (List String)) (k : ℕ) : Option Bool :=
  match cellAt rows k with
  | none => none
  | some cell => some (pyUpper (pyStrip cell) == "TRUE")

/-- `BudgetStats.from_rows`: every field is read from its fixed row index
of the single-column block (name at 0, total budget at 3, the numeric
fields at the 2-stride 5,7,...,23 and 29,31, the booleans at 25 and 27);
any out-of-range index or parse failure is fatal for the whole snapshot. -/
def BudgetStats.from_rows (rows : List (List String)) : Option BudgetStats := do
  let c0 ← cellAt rows 0
  let total_budget ← moneyAt rows 3
  let income_at_period_start ← moneyAt rows 5
  let checking_amount_period_start ← moneyAt rows 7
  let total_withheld_required_payments ← moneyAt rows 9
  let total_withheld_savings ← moneyAt rows 11
  let balance_after_withheld ← moneyAt rows 13
  let budget_after_withheld ← moneyAt rows 15
  let allocated_spending_budget ← moneyAt rows 17
  let balance_after_withheld_and_spending ← moneyAt rows 19
  let budget_after_withheld_and_spending ← moneyAt rows 21
  let budget_after_withheld_and_spent ← moneyAt rows 23
  let overspent_soft ← boolAt rows 25
  let overspent_hard ← boolAt rows 27
  let checking_floor ← moneyAt rows 29
  let free_to_spend ← moneyAt rows 31
  pure ⟨pyStrip c0, total_budget, income_at_period_start,
    checking_amount_period_start, total_withheld_required_payments,
    total_withheld_savings, balance_after_withheld, budget_after_withheld,
    allocated_spending_budget, balance_after_withheld_and_spending,
    budget_after_withheld_and_spending, budget_after_withheld_and_spent,
    overspent_soft, overspent_hard, checking_floor, free_to_spend⟩

/-- The values derived by the overflow block of `Summary.to_email_html`. -/
structure OverflowResult where
  bills_overspent : ℚ
  savings_overspent : ℚ
  spending_overspent : ℚ
  overflow_consumed : ℚ
  overflow_available : ℚ
  overflow_pct : ℚ
deriving DecidableEq, Repr

/-- The overflow computation of `Summary.to_email_html`: per-bucket
overspend clamped at zero, their sum as the consumed overflow, the
post-withholding-and-spending budget as the available pool, the consumed
share as a percentage when the pool is positive (zero otherwise), and a
final clamp of the percentage at a minimum of zero. -/
def computeOverflow (spent_categorized : Bss) (budget_stats : BudgetStats) :
    OverflowResult :=
  let bills_this_period := spent_categorized.bills
  let savings_this_period := spent_categorized.savings
  let spending_this_period := spent_categorized.spending
  let bills_overspent :=
    max 0 (bills_this_period - budget_stats.total_withheld_required_payments)
  let savings_overspent :=
    max 0 (savings_this_period - budget_stats.total_withheld_savings)
  let spending_overspent :=
    max 0 (spending_this_period - budget_stats.allocated_spending_budget)
  let overflow_consumed := bills_overspent + savings_overspent + spending_overspent
  let overflow_available := budget_stats.budget_after_withheld_and_spending
  let pct :=
    if overflow_available > 0 then overflow_consumed / overflow_available * 100
    else 0
  ⟨bills_overspent, savings_overspent, spending_overspent,
    overflow_consumed, overflow_available, max pct 0⟩

/-- Evaluation helper: a money parse reduced to its kernel-checkable
decomposition plus a small rational computation. -/
theorem parse_money_eq_of_parts (v : String) (p : NumParts)
    (hv : (v = "") = False)
    (h : partsOfResidue (stripMoney v) = some p) :
    parse_money v = some p.toRat := by
  simp [parse_money, hv, h]

/-- A row whose first cell strips to blank is skipped in one step of the
pairwise walk: nothing is emitted for it and the walk resumes at the very
next row. -/
theorem from_rows_skip_blank (c0 : String) (hc : pyStrip c0 = "")
    (cs : List String) (rest : List (List String)) :
    BssSpent.from_rows ((c0 :: cs) :: rest) = BssSpent.from_rows rest := by
  rw [BssSpent.from_rows.eq_def]
  simp [hc]

/-- C2: `parse_money` strips everything but digits, `.` and `-` and parses
the residue; empty input is exactly `0` (not an error); a malformed residue
of a non-empty input (a second decimal point, a stray dash, or no digit at
all) is a parse error surfaced to the caller, never a silent `0`; and the
three documented examples evaluate as stated. -/
theorem C2_parse_money_contract :
    parse_money "" = some 0 ∧
    parse_money "$1,234.56" = some (1234.56 : ℚ) ∧
    parse_money "-$45.00" = some (-45.00 : ℚ) ∧
    parse_money "$1.2.3" = none ∧
    parse_money "-$4-5" = none ∧
    parse_money "$--5" = none ∧
    parse_money "abc" = none := by
  refine ⟨by decide, ?_, ?_, by decide, by decide, by decide, by decide⟩
  · rw [parse_money_eq_of_parts "$1,234.56" ⟨false, 1234, 56, 2⟩ (by simp) (by decide)]
    norm_num [NumParts.toRat]
  · rw [parse_money_eq_of_parts "-$45.00" ⟨true, 45, 0, 2⟩ (by simp) (by decide)]
    norm_num [NumParts.toRat]

/-- C3: the categorized-spend mapper pairs a label row with the following
amount row, classifies the label case-insensitively by the substrings
"bill" and "sav" (anything else is Spending), skips a blank row by
advancing exactly one row without letting it take a label's place in a
pair, and the documented six-row scenario yields bills 500, savings 200,
spending 150 and total 850. -/
theorem C3_categorized_spend_mapper :
    ((Bss.from_rows [["Bills", ""], ["$500"], ["Savings", ""], ["$200"],
        ["Groceries", ""], ["$150"]]).map
      (fun b => (b.bills, b.savings, b.spending, b.total)) =
        some (500, 200, 150, 850)) ∧
    (∀ rest : List (List String),
        BssSpent.from_rows ([] :: rest) = BssSpent.from_rows rest) ∧
    (∀ (cs : List String) (rest : List (List String)),
        BssSpent.from_rows (("" :: cs) :: rest) = BssSpent.from_rows rest) ∧
    (∀ (cs : List String) (rest : List (List String)),
        BssSpent.from_rows (("  " :: cs) :: rest) = BssSpent.from_rows rest) ∧
    categorize "Monthly BILLS" = BssCategory.Bills ∧
    categorize "saVinGs" = BssCategory.Savings ∧
    categorize "Groceries" = BssCategory.Spending := by
  have h500 : parse_money "$500" = some 500 := by
    rw [parse_money_eq_of_parts "$500" ⟨false, 500, 0, 0⟩ (by simp) (by decide)]
    norm_num [NumParts.toRat]
  have h200 : parse_money "$200" = some 200 := by
    rw [parse_money_eq_of_parts "$200" ⟨false, 200, 0, 0⟩ (by simp) (by decide)]
    norm_num [NumParts.toRat]
  have h150 : parse_money "$150" = some 150 := by
    rw [parse_money_eq_of_parts "$150" ⟨false, 150, 0, 0⟩ (by simp) (by decide)]
    norm_num [NumParts.toRat]
  refine ⟨?_, ?_, ?_, ?_, by decide, by decide, by decide⟩
  · have hB : categorize "Bills" = BssCategory.Bills := by decide
    have hS : categorize "Savings" = BssCategory.Savings := by decide
    have hG : categorize "Groceries" = BssCategory.Spending := by decide
    have hrows : Bss.from_rows [["Bills", ""], ["$500"], ["Savings", ""],
        ["$200"], ["Groceries", ""], ["$150"]] =
        some ⟨[⟨BssCategory.Bills, 500⟩, ⟨BssCategory.Savings, 200⟩,
          ⟨BssCategory.Spending, 150⟩]⟩ := by
      simp +decide [Bss.from_rows, BssSpent.from_rows, h500, h200, h150,
        hB, hS, hG]
    rw [hrows]
    simp +decide [Bss.bills, Bss.savings, Bss.spending, Bss.total,
      Bss.sumCategory]
    norm_num
  · intro rest
    rw [BssSpent.from_rows.eq_def]
  · intro cs rest
    exact from_rows_skip_blank "" (by decide) cs rest
  · intro cs rest
    exact from_rows_skip_blank "  " (by decide) cs rest

/-- C7: for every categorized-spend collection over the closed three-value
category enumeration, the three per-category sums partition the total:
spending() + bills() + savings() = total(). -/
theorem C7_category_sums_partition_total (b : Bss) :
    b.spending + b.bills + b.savings = b.total := by
  obtain ⟨els⟩ := b
  simp only [Bss.spending, Bss.bills, Bss.savings, Bss.total, Bss.sumCategory]
  induction els with
  | nil => simp
  | cons e l ih =>
    cases hc : e.category <;>
      simp_all [List.filter_cons, hc] <;> linarith [ih]

/-- C10: a non-blank label row that closes the input without a following
amount row still produces an entity, its amount defaulting to exactly `0`;
it is neither dropped nor an error. -/
theorem C10_trailing_label (c0 : String) (cs : List String)
    (h : pyStrip c0 ≠ "") :
    BssSpent.from_rows [c0 :: cs] = some [⟨categorize c0, 0⟩] := by
  rw [BssSpent.from_rows.eq_def]
  simp [h]

/-- Witness for C10 at the concrete trailing label "Groceries". -/
theorem C10_trailing_label_witness :
    BssSpent.from_rows [["Groceries"]] =
      some [⟨categorize "Groceries", 0⟩] :=
  C10_trailing_label "Groceries" [] (by decide)

/-- C4: for each filtering mapper, a governing amount of "$0.00" parses to
exactly zero and the row is dropped (never materialized); "$0.01" is
nonzero and the row appears; and a money-parse failure on a non-empty
governing field ("$1.2.3") is an error, not a drop.  The range-level
conjunct shows the drop happening inside a materialized list. -/
theorem C4_filtering_mappers :
    PaymentsOverview.from_row ["Rent", "$0.00", "$5"] = some none ∧
    PaymentsOverview.from_row ["Rent", "$0.01", ""] =
      some (some ⟨"Rent", 1 / 100⟩) ∧
    PaymentsOverview.from_row ["Rent", "$1.2.3", ""] = none ∧
    SavingsOverview.from_row ["Trip", "$5", "$0.00"] = some none ∧
    SavingsOverview.from_row ["Trip", "", "$0.01"] =
      some (some ⟨"Trip", 1 / 100⟩) ∧
    SavingsOverview.from_row ["Trip", "", "$1.2.3"] = none ∧
    TransferOverview.from_row ["Checking", "Vacation", "$0.00"] = some none ∧
    TransferOverview.from_row ["Checking", "Vacation", "$0.01"] =
      some (some ⟨"Checking", "Vacation", 1 / 100⟩) ∧
    TransferOverview.from_row ["Checking", "Vacation", "$1.2.3"] = none ∧
    PaymentsOverview.from_range [["Rent", "$0.00"], ["Food", "$0.01"]] =
      some [⟨"Food", 1 / 100⟩] := by
  have h0 : parse_money "$0.00" = some 0 := by
    rw [parse_money_eq_of_parts "$0.00" ⟨false, 0, 0, 2⟩ (by simp) (by decide)]
    norm_num [NumParts.toRat]
  have h1 : parse_money "$0.01" = some (1 / 100) := by
    rw [parse_money_eq_of_parts "$0.01" ⟨false, 0, 1, 2⟩ (by simp) (by decide)]
    norm_num [NumParts.toRat]
  have hbad : parse_money "$1.2.3" = none := by decide
  have h5 : parse_money "$5" = some 5 := by
    rw [parse_money_eq_of_parts "$5" ⟨false, 5, 0, 0⟩ (by simp) (by decide)]
    norm_num [NumParts.toRat]
  refine ⟨?_, ?_, ?_, ?_, ?_, ?_, ?_, ?_, ?_, ?_⟩ <;>
    simp +decide [PaymentsOverview.from_row, SavingsOverview.from_row,
      TransferOverview.from_row, PaymentsOverview.from_range,
      h0, h1, hbad, h5]

/-- Loop-body lemma for C8: a single constructed balance carries the
derived difference. -/
theorem from_row_diff {row : List String} {ab : AccountBalance}
    (h : AccountBalance.from_row row = some ab) :
    ab.amount_diff = ab.amount_manual - ab.amount_calc := by
  unfold AccountBalance.from_row at h
  repeat split at h
  all_goals simp_all
  subst h
  rfl

/-- C8: every `AccountBalance` produced by the mapper satisfies
`amount_diff = amount_manual - amount_calc`; the difference is derived
from the two parsed amounts, never read from the input. -/
theorem C8_account_balance_diff (rows : List (List String))
    (result : List AccountBalance) (ab : AccountBalance)
    (h : AccountBalance.from_rows rows = some result)
    (hmem : ab ∈ result) :
    ab.amount_diff = ab.amount_manual - ab.amount_calc := by
  induction rows generalizing result with
  | nil =>
    simp only [AccountBalance.from_rows, Option.some.injEq] at h
    subst h
    simp at hmem
  | cons row rest ih =>
    rw [AccountBalance.from_rows.eq_def] at h
    rcases hr : AccountBalance.from_row row with _ | ab0 <;> simp [hr] at h
    rcases hrest : AccountBalance.from_rows rest with _ | l0 <;>
      simp [hrest] at h
    subst h
    rcases List.mem_cons.mp hmem with hmem | hmem
    · exact hmem ▸ from_row_diff hr
    · exact ih l0 hrest hmem

/-- Witness for C8: the mapper applied to one concrete row; the invariant
is obtained by instantiating the theorem there. -/
theorem C8_account_balance_diff_witness :
    (⟨"Checking", 25 / 2, 10, 25 / 2 - 10⟩ : AccountBalance).amount_diff =
      (⟨"Checking", 25 / 2, 10, 25 / 2 - 10⟩ : AccountBalance).amount_manual -
        (⟨"Checking", 25 / 2, 10, 25 / 2 - 10⟩ : AccountBalance).amount_calc := by
  have h10 : parse_money "$10" = some 10 := by
    rw [parse_money_eq_of_parts "$10" ⟨false, 10, 0, 0⟩ (by simp) (by decide)]
    norm_num [NumParts.toRat]
  have h125 : parse_money "$12.50" = some (25 / 2) := by
    rw [parse_money_eq_of_parts "$12.50" ⟨false, 12, 50, 2⟩ (by simp) (by decide)]
    norm_num [NumParts.toRat]
  refine C8_account_balance_diff [["Checking", "", "$10", "$12.50"]]
    [⟨"Checking", 25 / 2, 10, 25 / 2 - 10⟩] _ ?_ (by simp)
  simp +decide [AccountBalance.from_rows, AccountBalance.from_row, h10, h125]

/-- A successful cell read proves the index is in range. -/
theorem cellAt_some_lt {rows : List (List String)} {k : ℕ} {c : String}
    (h : cellAt rows k = some c) : k < rows.length := by
  unfold cellAt at h
  by_contra hk
  rw [List.get?_eq_none.mpr (Nat.le_of_not_lt hk)] at h
  simp at h

/-- Shorthand for proving an integer-dollar money parse. -/
theorem parse_money_int (v : String) (n : ℕ)
    (hv : (v = "") = False)
    (h : partsOfResidue (stripMoney v) = some ⟨false, n, 0, 0⟩) :
    parse_money v = some (n : ℚ) := by
  rw [parse_money_eq_of_parts v ⟨false, n, 0, 0⟩ hv h]
  norm_num [NumParts.toRat]

/-- C6: the statistics aggregator reads its sixteen fields at the fixed row
indices 0, 3, 5, 7, ..., 31 of the single-column block, compares the two
boolean cells (rows 25 and 27) case-insensitively against "TRUE", and on a
block shorter than the 32 rows the highest offset requires it fails as a
whole (`none`) instead of returning a partial snapshot. -/
theorem C6_budget_stats_fixed_offsets :
    (∀ rows : List (List String), rows.length < 32 →
      BudgetStats.from_rows rows = none) ∧
    BudgetStats.from_rows
      [["Checking"], [""], [""], ["$1000"], [""], ["$2000"], [""], ["$2500"],
       [""], ["$600"], [""], ["$300"], [""], ["$1600"], [""], ["$1100"],
       [""], ["$800"], [""], ["$750"], [""], ["$320"], [""], ["$250"],
       [""], ["TrUe"], [""], ["false"], [""], ["$100"], [""], ["$50"]] =
      some ⟨"Checking", 1000, 2000, 2500, 600, 300, 1600, 1100, 800, 750,
        320, 250, true, false, 100, 50⟩ := by
  constructor
  · intro rows hlen
    have h31 : moneyAt rows 31 = none := by
      unfold moneyAt cellAt
      rw [List.get?_eq_none.mpr (by omega)]
    simp [BudgetStats.from_rows, h31]
  · have p1000 : parse_money "$1000" = some 1000 :=
      parse_money_int _ 1000 (by simp) (by decide)
    have p2000 : parse_money "$2000" = some 2000 :=
      parse_money_int _ 2000 (by simp) (by decide)
    have p2500 : parse_money "$2500" = some 2500 :=
      parse_money_int _ 2500 (by simp) (by decide)
    have p600 : parse_money "$600" = some 600 :=
      parse_money_int _ 600 (by simp) (by decide)
    have p300 : parse_money "$300" = some 300 :=
      parse_money_int _ 300 (by simp) (by decide)
    have p1600 : parse_money "$1600" = some 1600 :=
      parse_money_int _ 1600 (by simp) (by decide)
    have p1100 : parse_money "$1100" = some 1100 :=
      parse_money_int _ 1100 (by simp) (by decide)
    have p800 : parse_money "$800" = some 800 :=
      parse_money_int _ 800 (by simp) (by decide)
    have p750 : parse_money "$750" = some 750 :=
      parse_money_int _ 750 (by simp) (by decide)
    have p320 : parse_money "$320" = some 320 :=
      parse_money_int _ 320 (by simp) (by decide)
    have p250 : parse_money "$250" = some 250 :=
      parse_money_int _ 250 (by simp) (by decide)
    have p100 : parse_money "$100" = some 100 :=
      parse_money_int _ 100 (by simp) (by decide)
    have p50 : parse_money "$50" = some 50 :=
      parse_money_int _ 50 (by simp) (by decide)
    simp +decide [BudgetStats.from_rows, moneyAt, cellAt, boolAt,
      p1000, p2000, p2500, p600, p300, p1600, p1100, p800, p750, p320,
      p250, p100, p50]

/-- Witness for C6's short-block conjunct: a 10-row block is rejected
whole. -/
theorem C6_budget_stats_fixed_offsets_witness :
    BudgetStats.from_rows
      [["Checking"], [""], [""], ["$1000"], [""], ["$2000"], [""], ["$2500"],
       [""], ["$600"]] = none :=
  C6_budget_stats_fixed_offsets.1 _ (by decide)

/-- C9: expense classification hinges on an exact, case-sensitive
comparison with the literal "FALSE": in the manual path any other flag
string (including "false", "False" and "") yields Expendable and exactly
"FALSE" yields RequiredPayment; in the recurring path any other flag
string yields Saving and exactly "FALSE" yields RequiredPayment; the two
full row mappers exhibit the same behaviour. -/
theorem C9_flag_exact_case_comparison :
    (∀ s : String, s ≠ "FALSE" →
      manualExpenseType s = ExpenseType.Expendable) ∧
    manualExpenseType "FALSE" = ExpenseType.RequiredPayment ∧
    (∀ s : String, s ≠ "FALSE" →
      recurringExpenseType s = ExpenseType.Saving) ∧
    recurringExpenseType "FALSE" = ExpenseType.RequiredPayment ∧
    manualExpenseType "false" = ExpenseType.Expendable ∧
    manualExpenseType "False" = ExpenseType.Expendable ∧
    manualExpenseType "" = ExpenseType.Expendable ∧
    recurringExpenseType "false" = ExpenseType.Saving ∧
    ((Budget.from_manual_budget_row 14 ["Food", "$5", "", "false"]).map
      Budget.expense_type = some ExpenseType.Expendable) ∧
    ((Budget.from_manual_budget_row 14 ["Rent", "$5", "", "FALSE"]).map
      Budget.expense_type = some ExpenseType.RequiredPayment) ∧
    ((Budget.from_recurring_budget_row [("Cat", ["Sub"])]
        ["Sub", "d", "$5", "30", "false", "Checking", "", "01/02/2026"]).map
      Budget.expense_type = some ExpenseType.Saving) ∧
    ((Budget.from_recurring_budget_row [("Cat", ["Sub"])]
        ["Sub", "d", "$5", "30", "FALSE", "Checking", "", "01/02/2026"]).map
      Budget.expense_type = some ExpenseType.RequiredPayment) := by
  have p5 : parse_money "$5" = some 5 :=
    parse_money_int _ 5 (by simp) (by decide)
  have f30 : pyFloat "30" = some 30 := by
    have : partsOfResidue (pyStrip "30").data = some ⟨false, 30, 0, 0⟩ := by
      decide
    simp [pyFloat, this]
    norm_num [NumParts.toRat]
  have hman : ∀ s : String, s ≠ "FALSE" →
      manualExpenseType s = ExpenseType.Expendable := by
    intro s hs
    unfold manualExpenseType
    split
    · simp_all
    · rfl
  have hrec : ∀ s : String, s ≠ "FALSE" →
      recurringExpenseType s = ExpenseType.Saving := by
    intro s hs
    unfold recurringExpenseType
    split
    · simp_all
    · rfl
  refine ⟨hman, by decide, hrec, by decide, by decide, by decide, by decide,
    by decide, ?_, ?_, ?_, ?_⟩ <;>
    simp +decide [Budget.from_manual_budget_row,
      Budget.from_recurring_budget_row, p5, f30]

/-- Witness for C9's universally quantified conjuncts, instantiated at the
lowercase flag "false". -/
theorem C9_flag_exact_case_comparison_witness :
    manualExpenseType "false" = ExpenseType.Expendable ∧
    recurringExpenseType "false" = ExpenseType.Saving :=
  ⟨C9_flag_exact_case_comparison.1 "false" (by decide),
   C9_flag_exact_case_comparison.2.2.1 "false" (by decide)⟩

/-- C5 counterexample: a recurring item dated exactly the minimum possible
date (encoded `0`, i.e. Python's `date.min` 0001-01-01, producible by a
next-payment cell of "01/01/0001") placed before an undated manual item
stays in front of it after the sort — the stable sort keeps input order on
the tied key — so an undated item is NOT placed before every dated item. -/
theorem C5_counterexample_dated_at_min :
    (⟨"Bills", some "Rent", 100, 30, "Rent", ExpenseType.RequiredPayment,
        some "Checking", some 0⟩ : Budget).next_approx_payment ≠ none ∧
    (⟨"Food", none, 50, 14, "Food", ExpenseType.Expendable,
        none, none⟩ : Budget).next_approx_payment = none ∧
    sortBudgets
      [⟨"Bills", some "Rent", 100, 30, "Rent", ExpenseType.RequiredPayment,
          some "Checking", some 0⟩,
       ⟨"Food", none, 50, 14, "Food", ExpenseType.Expendable,
          none, none⟩] =
      [⟨"Bills", some "Rent", 100, 30, "Rent", ExpenseType.RequiredPayment,
          some "Checking", some 0⟩,
       ⟨"Food", none, 50, 14, "Food", ExpenseType.Expendable,
          none, none⟩] := by
  refine ⟨by simp, rfl, ?_⟩
  simp [sortBudgets, List.insertionSort, List.orderedInsert, budgetSortKey]

/-- C5 (amended): the combined budget list is sorted globally ascending by
the effective due-date key (a missing date standing for the minimum
possible date), the output is a permutation of the input, and every item
placed ahead of an undated item must itself carry the minimum key — hence
every undated item precedes every item whose due date is strictly later
than the minimum possible date, while an item dated exactly the minimum
date may tie with (and stay ahead of) an undated one. -/
theorem C5_budget_sort_amended (l : List Budget) :
    (sortBudgets l).Pairwise
      (fun a b => budgetSortKey a ≤ budgetSortKey b) ∧
    (sortBudgets l).Pairwise
      (fun a b => b.next_approx_payment = none → budgetSortKey a = 0) ∧
    (sortBudgets l).Perm l := by
  have hs : (sortBudgets l).Pairwise
      (fun a b => budgetSortKey a ≤ budgetSortKey b) :=
    List.sorted_insertionSort (fun a b => budgetSortKey a ≤ budgetSortKey b) l
  refine ⟨hs, ?_, List.perm_insertionSort _ l⟩
  refine hs.imp ?_
  intro a b hab hb
  have hb0 : budgetSortKey b = 0 := by simp [budgetSortKey, hb]
  omega

/-- The consumed overflow is a sum of three zero-clamped terms, hence
nonnegative. -/
theorem overflow_consumed_nonneg (spent : Bss) (stats : BudgetStats) :
    0 ≤ (computeOverflow spent stats).overflow_consumed := by
  show (0 : ℚ) ≤ max 0 _ + max 0 _ + max 0 _
  have h1 := le_max_left (0 : ℚ)
    (spent.bills - stats.total_withheld_required_payments)
  have h2 := le_max_left (0 : ℚ)
    (spent.savings - stats.total_withheld_savings)
  have h3 := le_max_left (0 : ℚ)
    (spent.spending - stats.allocated_spending_budget)
  linarith

/-- The trailing `max(·, 0)` clamp never changes the percentage: it already
equals the conditional ratio. -/
theorem overflow_pct_def (spent : Bss) (stats : BudgetStats) :
    (computeOverflow spent stats).overflow_pct =
      (if stats.budget_after_withheld_and_spending > 0 then
        (computeOverflow spent stats).overflow_consumed /
          stats.budget_after_withheld_and_spending * 100
      else 0) := by
  show max (if _ > (0 : ℚ) then _ else _) 0 = _
  by_cases h : stats.budget_after_withheld_and_spending > 0
  · rw [if_pos h, if_pos h]
    exact max_eq_left (mul_nonneg
      (div_nonneg (overflow_consumed_nonneg spent stats) h.le) (by norm_num))
  · rw [if_neg h, if_neg h, max_self]

/-- C1: in the render-step overflow computation, each bucket's overspend is
`max 0 (actual - allowance)` with the allowances taken from the withheld
required payments, withheld savings and allocated spending budget
respectively; the consumed overflow is their sum; the percentage equals
`consumed / available * 100` exactly when the available pool is positive
and `0` otherwise (the trailing `max(·, 0)` clamp of the code never
changes it); it is never negative; and it is not clamped above 100 — the
closed conjunct exhibits a computation whose percentage is exactly 150. -/
theorem C1_overflow_computation (spent : Bss) (stats : BudgetStats) :
    (computeOverflow spent stats).bills_overspent =
      max 0 (spent.bills - stats.total_withheld_required_payments) ∧
    (computeOverflow spent stats).savings_overspent =
      max 0 (spent.savings - stats.total_withheld_savings) ∧
    (computeOverflow spent stats).spending_overspent =
      max 0 (spent.spending - stats.allocated_spending_budget) ∧
    (computeOverflow spent stats).overflow_consumed =
      (computeOverflow spent stats).bills_overspent +
        (computeOverflow spent stats).savings_overspent +
        (computeOverflow spent stats).spending_overspent ∧
    (computeOverflow spent stats).overflow_available =
      stats.budget_after_withheld_and_spending ∧
    (computeOverflow spent stats).overflow_pct =
      (if stats.budget_after_withheld_and_spending > 0 then
        (computeOverflow spent stats).overflow_consumed /
          stats.budget_after_withheld_and_spending * 100
      else 0) ∧
    0 ≤ (computeOverflow spent stats).overflow_pct ∧
    (computeOverflow ⟨[⟨BssCategory.Spending, 150⟩]⟩
      ⟨"Checking", 0, 0, 0, 0, 0, 0, 0, 0, 0, 100, 0, false, false,
        0, 0⟩).overflow_pct = 150 := by
  refine ⟨rfl, rfl, rfl, rfl, rfl, overflow_pct_def spent stats, ?_, ?_⟩
  · exact le_max_right _ _
  · simp [computeOverflow, Bss.spending, Bss.bills, Bss.savings,
      Bss.sumCategory, max_def]
